import Mathlib

/-!
Shallow embedding of the storage accounting core of the tahoe-lafs
repository snapshot: the immutable share container
(allmydata/storage/immutable.py) and the lease database, accountant and
accounting crawler (allmydata/storage/accountant.py).

Files are modelled as lists of bytes (Nat, one per byte).  Python file
semantics: a write that seeks past end-of-file zero-fills the gap; a read
past end-of-file is truncated.  Python exceptions are modelled with
Except / an error component; machine integers are Nat / Int with explicit
wrapping where the source wraps.
-/

/-- Python-level errors raised by the modelled code paths. -/
inductive PyError where
  | dataTooLarge (maxSize offset length : Nat)
  | preconditionFailed
  | unknownImmutableContainerVersion (version : Nat)
  | structError
  | assertionFailed
  | osError
  | sqlOperationalError (table : String) (cols vals : Nat)
  | badAccountName
deriving DecidableEq, Repr

/-- struct.pack of one big-endian 4-byte unsigned field (">L"). -/
def pack4 (n : Nat) : List Nat :=
  [n / 16777216 % 256, n / 65536 % 256, n / 256 % 256, n % 256]

/-- Big-endian value of a byte list (struct.unpack of one ">L" field when
the list has four bytes). -/
def be32 (l : List Nat) : Nat :=
  l.foldl (fun a b => 256 * a + b) 0

/-- Zero-pad a file to length at least n (POSIX seek-past-EOF semantics). -/
def padTo (f : List Nat) (n : Nat) : List Nat :=
  f ++ List.replicate (n - f.length) 0

/-- Write data into file f at absolute position pos: seek(pos) then
write(data).  The gap (if pos is past EOF) reads as zero bytes; bytes after
pos + data.length are preserved. -/
def writeAt (f : List Nat) (pos : Nat) (data : List Nat) : List Nat :=
  (padTo f pos).take pos ++ data ++ f.drop (pos + data.length)

/-- ShareFile._data_offset: the payload begins at byte 0xc = 12. -/
def data_offset : Nat := 12

/-- ShareFile.read_share_data(offset, length): seek(_data_offset+offset)
then read(length); reads beyond EOF are truncated, a start beyond EOF
yields the empty string.  (The source's precondition(offset >= 0) is
expressed by offset being a Nat.) -/
def read_share_data (f : List Nat) (offset length : Nat) : List Nat :=
  (f.drop (data_offset + offset)).take length

/-- ShareFile.write_share_data(offset, data): raises DataTooLargeError when
max_size is set and offset+len(data) > max_size, BEFORE opening the file,
so on error the file is unchanged; otherwise writes at
_data_offset+offset.  Returns (raised error, resulting file). -/
def write_share_data (maxSize : Option Nat) (f : List Nat) (offset : Nat)
    (data : List Nat) : Option PyError × List Nat :=
  match maxSize with
  | some m =>
    if offset + data.length > m then
      (some (.dataTooLarge m offset data.length), f)
    else
      (none, writeAt f (data_offset + offset) data)
  | none => (none, writeAt f (data_offset + offset) data)

/-- Header bytes written by ShareFile.__init__ with create=True:
struct.pack(">LLL", 1, min(2**32-1, max_size), 0). -/
def shareHeaderBytes (max_size : Nat) : List Nat :=
  pack4 1 ++ pack4 (min (2 ^ 32 - 1) max_size) ++ pack4 0

/-- The filesystem facts ShareFile.__init__ with create=True touches:
whether a file already exists at the path, and whether the parent
directories exist. -/
structure CreateFS where
  fileExists : Bool
  parentDirsExist : Bool
deriving DecidableEq, Repr

/-- ShareFile.__init__ with create=True: asserts the file does not exist,
then fileutil.make_dirs(dirname), then writes the 12-byte header. -/
def sharefile_create (fs : CreateFS) (max_size : Nat) :
    Except PyError (CreateFS × List Nat) :=
  if fs.fileExists then .error .assertionFailed
  else .ok (⟨true, true⟩, shareHeaderBytes max_size)

/-- ShareFile.__init__ with create=False, on a file whose bytes are f:
f.read(0xc) returns the first min(12, len) bytes; struct.unpack(">LL", s)
requires len(s) == 8 exactly (struct.calcsize(">LL") == 8) and raises
struct.error otherwise; then the version field is compared with 1.
On success the data offset 0xc is usable. -/
def sharefile_open (f : List Nat) : Except PyError Nat :=
  let header := f.take 12
  if header.length = 8 then
    let version := be32 (header.take 4)
    if version ≠ 1 then .error (.unknownImmutableContainerVersion version)
    else .ok data_offset
  else .error .structError

/-- Per-server bookkeeping the BucketWriter reports into: the latency /
counter calls and the bucket_writer_closed notifications
(StorageServer.bucket_writer_closed(writer, consumed_size)). -/
structure SSLog where
  writes : Nat
  closes : Nat
  aborts : Nat
  closedNotices : List Nat
deriving DecidableEq, Repr

/-- The filesystem and connection facts a BucketWriter touches.
staged is the file at incominghome, finalFile the file at finalhome.
stagedParentOthers counts directory entries of dirname(incominghome) other
than the staged file itself; stagedGrandOthers counts entries of the
prefix directory other than that parent directory.  canaryHooked is
whether the disconnect hook is registered. -/
structure WriterWorld where
  staged : Option (List Nat)
  finalFile : Option (List Nat)
  stagedParentOthers : Nat
  stagedParentExists : Bool
  stagedGrandOthers : Nat
  stagedGrandExists : Bool
  finalParentExists : Bool
  canaryHooked : Bool
  log : SSLog
deriving DecidableEq, Repr

/-- The BucketWriter's own mutable attributes. -/
structure BucketWriter where
  closed : Bool
  throw_out_all_data : Bool
  max_size : Nat
deriving DecidableEq, Repr

/-- BucketWriter.remote_write: precondition(not self.closed) raises on a
closed writer; if throw_out_all_data, returns without writing or counting;
otherwise delegates to ShareFile.write_share_data and then counts. -/
def remote_write (w : BucketWriter) (world : WriterWorld) (offset : Nat)
    (data : List Nat) : Except PyError (BucketWriter × WriterWorld) :=
  if w.closed then .error .preconditionFailed
  else if w.throw_out_all_data then .ok (w, world)
  else
    match world.staged with
    | none => .error .osError
    | some f =>
      match write_share_data (some w.max_size) f offset data with
      | (some e, _) => .error e
      | (none, f2) =>
        .ok (w, { world with
                  staged := some f2,
                  log := { world.log with writes := world.log.writes + 1 } })

/-- BucketWriter.remote_close: precondition(not self.closed); make_dirs on
dirname(finalhome); rename incominghome -> finalhome; best-effort rmdir of
the staged parent and then the staged grandparent (an EnvironmentError on
the first skips the second, and both are swallowed); mark closed; unhook
the canary; stat the final file and notify bucket_writer_closed with its
length; count("close"). -/
def remote_close (w : BucketWriter) (world : WriterWorld) :
    Except PyError (BucketWriter × WriterWorld) :=
  if w.closed then .error .preconditionFailed
  else
    match world.staged with
    | none => .error .osError
    | some f =>
      let w1 := { world with
                  finalParentExists := true,
                  staged := none,
                  finalFile := some f }
      let w2 :=
        if w1.stagedParentOthers = 0 then
          let wp := { w1 with stagedParentExists := false }
          if wp.stagedGrandOthers = 0 then
            { wp with stagedGrandExists := false }
          else wp
        else w1
      .ok ({ w with closed := true },
           { w2 with
             canaryHooked := false,
             log := { w2.log with
                      closes := w2.log.closes + 1,
                      closedNotices := w2.log.closedNotices ++ [f.length] } })

/-- BucketWriter._abort: returns immediately when already closed;
otherwise os.remove(incominghome), rmdir of the now-empty parent when it
has no other entries, mark closed, and notify bucket_writer_closed(0). -/
def writer_abort (w : BucketWriter) (world : WriterWorld) :
    Except PyError (BucketWriter × WriterWorld) :=
  if w.closed then .ok (w, world)
  else
    match world.staged with
    | none => .error .osError
    | some _ =>
      let w1 := { world with staged := none }
      let w2 :=
        if w1.stagedParentOthers = 0 then
          { w1 with stagedParentExists := false }
        else w1
      .ok ({ w with closed := true },
           { w2 with log := { w2.log with
                      closedNotices := w2.log.closedNotices ++ [0] } })

/-- BucketWriter.remote_abort: unhooks the canary when not yet closed,
then runs _abort (a no-op on a closed writer), then count("abort"). -/
def remote_abort (w : BucketWriter) (world : WriterWorld) :
    Except PyError (BucketWriter × WriterWorld) :=
  let world0 := if !w.closed then { world with canaryHooked := false } else world
  match writer_abort w world0 with
  | .error e => .error e
  | .ok (w2, world2) =>
    .ok (w2, { world2 with log := { world2.log with
                aborts := world2.log.aborts + 1 } })

/-- BucketWriter._disconnected: runs _abort unless already closed. -/
def writer_disconnected (w : BucketWriter) (world : WriterWorld) :
    Except PyError (BucketWriter × WriterWorld) :=
  if !w.closed then writer_abort w world else .ok (w, world)

/-- A SQLite value as bound by the Python sqlite3 driver. -/
inductive SqlValue where
  | null
  | int (n : Int)
  | text (s : String)
deriving DecidableEq, Repr

/-- Column count of the shares table of LEASE_SCHEMA_V1:
id, prefix, storage_index, shnum, size. -/
def sharesColumnCount : Nat := 5

/-- Column count of the leases table of LEASE_SCHEMA_V1:
share_id, account_id, expiration_time, renew_secret, cancel_secret. -/
def leasesColumnCount : Nat := 5

/-- SQLite semantics of INSERT INTO t VALUES (...) with no column list:
the statement is rejected with an OperationalError unless the number of
supplied values equals the number of columns of the table. -/
def sqlite_insert (tableCols : Nat) (table : String) (vals : List SqlValue) :
    Except PyError (List SqlValue) :=
  if vals.length = tableCols then .ok vals
  else .error (.sqlOperationalError table tableCols vals.length)

/-- One row of the shares table (id assigned by AUTOINCREMENT). -/
structure ShareRow where
  rowid : Nat
  pfx : String
  storage_index : String
  shnum : Int
  size : Int
deriving DecidableEq, Repr

/-- The in-memory (current transaction) contents of the lease database
relevant to the modelled operations.  Lease rows are kept as raw value
lists because the source's insert supplies raw values positionally. -/
structure LeaseDBState where
  shares : List ShareRow
  leases : List (List SqlValue)
  nextRowId : Nat
  dirty : Bool
deriving DecidableEq, Repr

def DAY : Nat := 24 * 60 * 60

def MONTH : Nat := 30 * DAY

def STARTER_LEASE_ACCOUNTID : Nat := 1

def STARTER_LEASE_DURATION : Nat := 2 * MONTH

/-- LeaseDB.add_share(prefix, storage_index, shnum, size): sets dirty,
executes INSERT INTO shares VALUES (?,?,?,?,?) with
(None, prefix, storage_index, shnum, size), takes lastrowid, then executes
INSERT INTO leases VALUES (?,?,?) with
(shareid, STARTER_LEASE_ACCOUNTID, time.time()+STARTER_LEASE_DURATION).
now stands for time.time(). -/
def add_share (db : LeaseDBState) (pfx storage_index : String) (shnum : Int)
    (size : Int) (now : Nat) : Except PyError LeaseDBState :=
  let db1 := { db with dirty := true }
  match sqlite_insert sharesColumnCount "shares"
      [.null, .text pfx, .text storage_index, .int shnum, .int size] with
  | .error e => .error e
  | .ok _ =>
    let shareid : Nat := db1.nextRowId
    let db2 := { db1 with
                 shares := db1.shares ++ [ShareRow.mk shareid pfx storage_index shnum size],
                 nextRowId := shareid + 1 }
    match sqlite_insert leasesColumnCount "leases"
        [.int (Int.ofNat shareid), .int (Int.ofNat STARTER_LEASE_ACCOUNTID),
         .int (Int.ofNat (now + STARTER_LEASE_DURATION))] with
    | .error e => .error e
    | .ok leaserow => .ok { db2 with leases := db2.leases ++ [leaserow] }

/-- LeaseDB.get_shares_for_prefix(prefix): SELECT storage_index, shnum
FROM shares WHERE prefix == ?.  (The source builds a Python set from the
rows; the unique index on (storage_index, shnum) makes the row list
duplicate-free, so a list stands for the set.) -/
def get_shares_for_prefix (db : LeaseDBState) (p : String) :
    List (String × Int) :=
  (db.shares.filter (fun r => r.pfx == p)).map fun r => (r.storage_index, r.shnum)

/-- LeaseDB.remove_deleted_shares(shareids): sets dirty when the argument
is non-empty, then for each (storage_index, shnum) executes DELETE FROM
shares WHERE storage_index=? AND shnum=? binding (storage_index,
str(shnum)); the shnum column has INTEGER affinity, so SQLite converts
the bound text str(shnum) back to the integer shnum before comparing. -/
def remove_deleted_shares (db : LeaseDBState) (shareids : List (String × Int)) :
    LeaseDBState :=
  let db1 := if shareids.isEmpty then db else { db with dirty := true }
  shareids.foldl
    (fun d sid =>
      { d with
        shares := d.shares.filter
          (fun r => !(r.storage_index == sid.1 && r.shnum == sid.2)) })
    db1

/-- A lease database connection: the current in-transaction view and the
last committed (on-disk) state. -/
structure LeaseDBConn where
  cur : LeaseDBState
  onDisk : LeaseDBState
deriving DecidableEq, Repr

/-- LeaseDB.commit: commits the transaction when dirty (the source never
clears _dirty, so the flag is left as-is). -/
def leasedb_commit (c : LeaseDBConn) : LeaseDBConn :=
  if c.cur.dirty then { c with onDisk := c.cur } else c

/-- Python whitespace as stripped by int(): space, tab, newline, carriage
return, vertical tab, form feed. -/
def pyIsSpace (c : Char) : Bool :=
  c == ' ' || c == '\t' || c == '\n' || c == '\r' || c.toNat == 11 || c.toNat == 12

def isAsciiDigit (c : Char) : Bool :=
  48 ≤ c.toNat && c.toNat ≤ 57

def digitsVal (cs : List Char) : Nat :=
  cs.foldl (fun a c => 10 * a + (c.toNat - 48)) 0

/-- Python 2 int(s) on a decimal string: strips surrounding whitespace,
allows one optional sign, then requires a non-empty digit run; returns
none where the source would raise ValueError (caught by the crawler). -/
def pyInt (s : String) : Option Int :=
  let cs := ((s.toList.dropWhile pyIsSpace).reverse.dropWhile pyIsSpace).reverse
  match cs with
  | [] => none
  | c :: rest =>
    if c == '+' then
      if !rest.isEmpty && rest.all isAsciiDigit then some (digitsVal rest) else none
    else if c == '-' then
      if !rest.isEmpty && rest.all isAsciiDigit then some (-(digitsVal rest : Int)) else none
    else
      if (c :: rest).all isAsciiDigit then some (digitsVal (c :: rest)) else none

/-- The disk-share enumeration of AccountingCrawler.process_prefixdir:
for each storage_index directory among buckets, every file whose name
parses as an integer contributes (storage_index, shnum) to the set
disk_shares.  Buckets are given as (storage_index, file names); the
accumulator deduplicates, mirroring the Python set. -/
def diskSharesOfBuckets (buckets : List (String × List String)) :
    List (String × Int) :=
  buckets.foldl
    (fun acc b =>
      b.2.foldl
        (fun acc2 name =>
          match pyInt name with
          | none => acc2
          | some shnum =>
            if acc2.contains (b.1, shnum) then acc2 else acc2 ++ [(b.1, shnum)])
        acc)
    []

/-- The add-new-shares loop of process_prefixdir: add_share is called for
each (storage_index, shnum) in disk_shares minus db_shares, with the size
reported by size_of_disk_file for that file; an exception from add_share
propagates out of the loop.  size_of_disk_file reads st_blocks*512 (or
st_size where unavailable) from the OS, modelled by the oracle fsize. -/
def addNewShares (db : LeaseDBState) (pfx : String)
    (ids : List (String × Int)) (fsize : String → Int → Int) (now : Nat) :
    Except PyError LeaseDBState :=
  match ids with
  | [] => .ok db
  | sid :: rest =>
    match add_share db pfx sid.1 sid.2 (fsize sid.1 sid.2) now with
    | .error e => .error e
    | .ok db2 => addNewShares db2 pfx rest fsize now

/-- AccountingCrawler.process_prefixdir: builds disk_shares from the
bucket directories, queries db_shares = get_shares_for_prefix(prefix),
calls add_share for every member of disk_shares - db_shares (an exception
aborts the whole call before any commit), calls remove_deleted_shares on
db_shares - disk_shares, and commits. -/
def process_prefixdir (conn : LeaseDBConn) (pfx : String)
    (buckets : List (String × List String)) (fsize : String → Int → Int)
    (now : Nat) : Except PyError LeaseDBConn :=
  let dsk := diskSharesOfBuckets buckets
  let dbs := get_shares_for_prefix conn.cur pfx
  let newShares := dsk.filter fun sid => !dbs.contains sid
  match addNewShares conn.cur pfx newShares fsize now with
  | .error e => .error e
  | .ok cur1 =>
    let deleted := dbs.filter fun sid => !dsk.contains sid
    let cur2 := remove_deleted_shares cur1 deleted
    .ok (leasedb_commit { conn with cur := cur2 })

/-- The character class of the source regex [a-zA-Z0-9+-_] in
Accountant.get_ownernum_by_pubkey.  In a regex character class the
unescaped - between + and _ denotes the code-point range 0x2B..0x5F, so
the class is a-z, A-Z, 0-9, and every character from + (0x2B) through
_ (0x5F). -/
def codeClassChar (c : Char) : Bool :=
  let n := c.toNat
  (97 ≤ n && n ≤ 122) || (65 ≤ n && n ≤ 90) || (48 ≤ n && n ≤ 57) ||
    (43 ≤ n && n ≤ 95)

/-- Modelled from the spec: the character class of the pattern
^[A-Za-z0-9+\-_]+$ stated by the specification for get_account, where the
escaped hyphen is the literal character -.  Named for comparison against
codeClassChar; it is not part of the source. -/
def specClassChar (c : Char) : Bool :=
  let n := c.toNat
  (97 ≤ n && n ≤ 122) || (65 ≤ n && n ≤ 90) || (48 ≤ n && n ≤ 57) ||
    c == '+' || c == '-' || c == '_'

/-- Python re.search of a pattern anchored as one-or-more of a character
class between caret and dollar: it matches a non-empty string of class
characters, and the dollar also matches just before one trailing
newline. -/
def pyRegexAnchoredPlus (cls : Char → Bool) (s : String) : Bool :=
  let cs := s.toList
  (!cs.isEmpty && cs.all cls) ||
    (cs.getLast? == some '\n' && (!cs.dropLast.isEmpty && cs.dropLast.all cls))

/-- The accountant state touched by get_ownernum_by_pubkey: the existing
account directory names, the next_ownernum counter file, and each
account's ownernum file. -/
structure AccountantState where
  accounts : List String
  nextOwnernum : Nat
  ownernums : List (String × Nat)
deriving DecidableEq, Repr

/-- Accountant.get_ownernum_by_pubkey(pubkey_vs): raises BadAccountName
when re.search of the source pattern fails; then asserts that the string
contains no dot and no slash (an AssertionError when it does); then, when
the account directory is missing, either returns None (create_if_missing
false) or bumps next_ownernum, creates the directory and writes the
ownernum and created files; finally reads the ownernum back.  Both raising
paths precede every state change. -/
def get_ownernum_by_pubkey (st : AccountantState) (pubkey_vs : String)
    (create_if_missing : Bool) : Except PyError (Option Nat × AccountantState) :=
  if !pyRegexAnchoredPlus codeClassChar pubkey_vs then .error .badAccountName
  else if pubkey_vs.toList.contains '.' || pubkey_vs.toList.contains '/' then
    .error .assertionFailed
  else if st.accounts.contains pubkey_vs then
    match st.ownernums.find? (fun p => p.1 == pubkey_vs) with
    | some p => .ok (some p.2, st)
    | none => .error .osError
  else if !create_if_missing then .ok (none, st)
  else
    let n := st.nextOwnernum
    .ok (some n,
         { st with
           accounts := st.accounts ++ [pubkey_vs],
           nextOwnernum := n + 1,
           ownernums := st.ownernums ++ [(pubkey_vs, n)] })

/-- A sequence of ShareFile.write_share_data calls applied to a file, each
through the same container (same max_size); a call that raises leaves the
file as it was. -/
def applyWrites (maxSize : Option Nat) (ops : List (Nat × List Nat))
    (f : List Nat) : List Nat :=
  ops.foldl (fun acc op => (write_share_data maxSize acc op.1 op.2).2) f

/-- The world-state effect of BucketWriter._abort on an open writer:
unlink the staged file, remove its parent directory when nothing else is
in it, and notify bucket_writer_closed(0). -/
def abortEffect (world : WriterWorld) : WriterWorld :=
  let w1 := { world with staged := none }
  let w2 :=
    if w1.stagedParentOthers = 0 then
      { w1 with stagedParentExists := false }
    else w1
  { w2 with log := { w2.log with closedNotices := w2.log.closedNotices ++ [0] } }

/-- The world-state effect of BucketWriter.remote_abort on an open writer:
unhook the canary, apply _abort, count the abort. -/
def remoteAbortWorld (world : WriterWorld) : WriterWorld :=
  let a := abortEffect { world with canaryHooked := false }
  { a with log := { a.log with aborts := a.log.aborts + 1 } }

/-- A writer that has already left the OPEN state (after a close), with
its staged file gone and the committed file in place. -/
def closedWriterEx : BucketWriter := ⟨true, false, 1024⟩

def worldClosedEx : WriterWorld :=
  ⟨none, some [104, 101, 108, 108, 111], 0, false, 0, false, true, false,
   ⟨1, 1, 0, [5]⟩⟩

/-- An OPEN writer fresh from allocation, with its staged container
created and nothing at the committed path. -/
def openWriterEx : BucketWriter := ⟨false, false, 1024⟩

def worldOpenEx : WriterWorld :=
  ⟨some (shareHeaderBytes 1024), none, 0, true, 0, true, false, true,
   ⟨0, 0, 0, []⟩⟩

theorem length_take_padTo (f : List Nat) (pos : Nat) :
    ((padTo f pos).take pos).length = pos := by
  simp [padTo, List.length_take]
  omega

theorem writeAt_drop_take (f : List Nat) (pos : Nat) (data : List Nat) :
    ((writeAt f pos data).drop pos).take data.length = data := by
  unfold writeAt
  rw [List.append_assoc, List.drop_left' (length_take_padTo f pos)]
  exact List.take_left' rfl

theorem take_12_writeAt (f : List Nat) (pos : Nat) (data : List Nat)
    (hpos : 12 ≤ pos) (hf : 12 ≤ f.length) :
    (writeAt f pos data).take 12 = f.take 12 := by
  unfold writeAt
  rw [List.append_assoc,
    List.take_append_of_le_length (by rw [length_take_padTo]; exact hpos)]
  rw [List.take_take, Nat.min_eq_left hpos]
  unfold padTo
  exact List.take_append_of_le_length hf

theorem le_length_writeAt (f : List Nat) (pos : Nat) (data : List Nat) :
    pos ≤ (writeAt f pos data).length := by
  unfold writeAt
  simp [List.length_append, padTo]
  omega

theorem be32_pack4 (n : Nat) (h : n < 2 ^ 32) : be32 (pack4 n) = n := by
  simp [be32, pack4]
  omega

/-- C1: the claim says add_share(prefix, storage_index, shnum, size)
succeeds and inserts one shares row plus exactly one starter lease for
account 1 expiring 5184000 seconds later.  On the code, the second
statement, INSERT INTO leases VALUES (?,?,?), supplies 3 values to the
5-column leases table of LEASE_SCHEMA_V1, which SQLite rejects, so every
add_share call raises instead of succeeding; evaluated here at a concrete
call.  The starter-lease constants themselves do match the claim. -/
theorem add_share_lease_insert_rejected :
    add_share ⟨[], [], 1, false⟩ "aa" "aaaaaaaaaaaaaaaaaaaaaaaaaa" 0 1024 1700000000
        = .error (.sqlOperationalError "leases" 5 3) ∧
      STARTER_LEASE_DURATION = 5184000 ∧ STARTER_LEASE_ACCOUNTID = 1 :=
  ⟨rfl, rfl, rfl⟩

/-- C2: the claim says process_prefixdir reconciles the database with the
disk and commits.  On the code, the first disk share missing from the
database makes the add_share loop raise (the malformed lease insert of
C1), so the call fails before remove_deleted_shares and commit; evaluated
here on an empty database and a prefix directory holding one share file
named 0. -/
theorem process_prefixdir_fails_on_new_disk_share :
    process_prefixdir ⟨⟨[], [], 1, false⟩, ⟨[], [], 1, false⟩⟩ "aa"
        [("aaaaaaaaaaaaaaaaaaaaaaaaaa", ["0"])] (fun _ _ => 1024) 1700000000
      = .error (.sqlOperationalError "leases" 5 3) :=
  rfl

/-- C3: the claim says opening an existing share file succeeds whenever
the version field is 1.  On the code, struct.unpack of the 8-byte format
">LL" is applied to the 12 bytes returned by f.read(0xc), which raises
struct.error on every file of the normal created layout, including this
valid version-1 header (shown to be 12 bytes with version field 1). -/
theorem sharefile_open_rejects_version1_header :
    sharefile_open (shareHeaderBytes 1024) = .error .structError ∧
      be32 ((shareHeaderBytes 1024).take 4) = 1 ∧
      (shareHeaderBytes 1024).length = 12 :=
  ⟨rfl, rfl, rfl⟩

/-- C4: the claim says get_ownernum_by_pubkey raises BadAccountName for
every string failing ^[A-Za-z0-9+\-_]+$, in particular any string
containing a dot.  On the code, the unescaped hyphen in [a-zA-Z0-9+-_]
makes +-_ the code-point range 0x2B..0x5F, which contains the dot, so "."
passes the regex, is not rejected with BadAccountName, and instead trips
the following assert (AssertionError). -/
theorem get_ownernum_dot_raises_assertion_not_bad_account_name :
    get_ownernum_by_pubkey ⟨[], 0, []⟩ "." true = .error .assertionFailed ∧
      codeClassChar '.' = true ∧
      specClassChar '.' = false ∧
      pyRegexAnchoredPlus codeClassChar "." = true :=
  ⟨rfl, rfl, rfl, rfl⟩

/-- C6: write_share_data on a container with max_size set raises
DataTooLarge exactly when offset + len(data) > max_size, and an offending
call leaves the file unchanged (the check precedes the file write). -/
theorem write_share_data_too_large_iff (m offset : Nat) (f data : List Nat) :
    ((write_share_data (some m) f offset data).1 ≠ none ↔
        offset + data.length > m) ∧
      (offset + data.length > m →
        write_share_data (some m) f offset data
          = (some (.dataTooLarge m offset data.length), f)) := by
  by_cases h : offset + data.length > m <;> simp [write_share_data, h]

/-- Witness for C6 at the spec scenario S5: allocated_size 10, a 5-byte
write at offset 8 raises DataTooLarge and the file is unchanged. -/
theorem write_share_data_too_large_witness :
    write_share_data (some 10) (shareHeaderBytes 10) 8 [1, 2, 3, 4, 5]
      = (some (.dataTooLarge 10 8 5), shareHeaderBytes 10) :=
  (write_share_data_too_large_iff 10 8 (shareHeaderBytes 10) [1, 2, 3, 4, 5]).2
    (by decide)

/-- C7: share container round-trip: writing b at payload offset o with
o + len(b) ≤ max_size and then reading len(b) bytes at o returns b. -/
theorem write_then_read_roundtrip (m o : Nat) (b f : List Nat)
    (h : o + b.length ≤ m) :
    read_share_data ((write_share_data (some m) f o b).2) o b.length = b := by
  have hng : ¬ m < o + b.length := Nat.not_lt.2 h
  simp [write_share_data, hng, read_share_data]
  exact writeAt_drop_take f (data_offset + o) b

/-- Witness for C7: write [9, 8, 7] at offset 3 of a fresh container with
max_size 100 and read it back. -/
theorem write_then_read_roundtrip_witness :
    read_share_data ((write_share_data (some 100) (shareHeaderBytes 100) 3 [9, 8, 7]).2)
      3 3 = [9, 8, 7] :=
  write_then_read_roundtrip 100 3 [9, 8, 7] (shareHeaderBytes 100) (by decide)

/-- C5 counterexample: the claim says every invocation of write, close,
or abort on a writer that left the OPEN state is rejected.  On a closed
writer, remote_abort is accepted: _abort returns immediately and
count("abort") still runs, so the call completes normally instead of
being rejected. -/
theorem remote_abort_after_close_not_rejected :
    remote_abort closedWriterEx worldClosedEx
      = .ok (closedWriterEx,
             { worldClosedEx with
               log := { worldClosedEx.log with
                        aborts := worldClosedEx.log.aborts + 1 } }) :=
  rfl

/-- C5 amended: once a writer has left the OPEN state, write and close
are rejected by precondition(not self.closed); abort (and the disconnect
callback) is accepted but performs no file modification and no
bucket_writer_closed notification, only incrementing the abort counter. -/
theorem closed_writer_write_close_rejected_abort_noop
    (w : BucketWriter) (world : WriterWorld) (offset : Nat) (data : List Nat)
    (h : w.closed = true) :
    remote_write w world offset data = .error .preconditionFailed ∧
      remote_close w world = .error .preconditionFailed ∧
      remote_abort w world
        = .ok (w, { world with
                    log := { world.log with aborts := world.log.aborts + 1 } }) ∧
      writer_disconnected w world = .ok (w, world) := by
  refine ⟨?_, ?_, ?_, ?_⟩ <;>
    simp [remote_write, remote_close, remote_abort, writer_abort,
      writer_disconnected, h]

/-- Witness for the amended C5 on a concrete closed writer. -/
theorem closed_writer_ops_witness :
    remote_write closedWriterEx worldClosedEx 0 [7] = .error .preconditionFailed ∧
      remote_close closedWriterEx worldClosedEx = .error .preconditionFailed ∧
      remote_abort closedWriterEx worldClosedEx
        = .ok (closedWriterEx,
               { worldClosedEx with
                 log := { worldClosedEx.log with
                          aborts := worldClosedEx.log.aborts + 1 } }) ∧
      writer_disconnected closedWriterEx worldClosedEx
        = .ok (closedWriterEx, worldClosedEx) :=
  closed_writer_write_close_rejected_abort_noop closedWriterEx worldClosedEx 0 [7] rfl

theorem writer_abort_open_eq (w : BucketWriter) (world : WriterWorld)
    (f : List Nat) (hOpen : w.closed = false) (hStaged : world.staged = some f) :
    writer_abort w world = .ok ({ w with closed := true }, abortEffect world) := by
  simp [writer_abort, abortEffect, hOpen, hStaged]

theorem remote_abort_open_eq (w : BucketWriter) (world : WriterWorld)
    (f : List Nat) (hOpen : w.closed = false) (hStaged : world.staged = some f) :
    remote_abort w world
      = .ok ({ w with closed := true }, remoteAbortWorld world) := by
  simp [remote_abort, writer_abort, remoteAbortWorld, abortEffect, hOpen, hStaged]

theorem abortEffect_fields (world : WriterWorld) :
    (abortEffect world).staged = none ∧
      (abortEffect world).finalFile = world.finalFile ∧
      (world.stagedParentOthers = 0 →
        (abortEffect world).stagedParentExists = false) ∧
      (abortEffect world).log.closedNotices = world.log.closedNotices ++ [0] := by
  by_cases hp : world.stagedParentOthers = 0 <;> simp [abortEffect, hp]

theorem remoteAbortWorld_fields (world : WriterWorld) :
    (remoteAbortWorld world).staged = none ∧
      (remoteAbortWorld world).finalFile = world.finalFile ∧
      (world.stagedParentOthers = 0 →
        (remoteAbortWorld world).stagedParentExists = false) ∧
      (remoteAbortWorld world).log.closedNotices
        = world.log.closedNotices ++ [0] := by
  by_cases hp : world.stagedParentOthers = 0 <;>
    simp [remoteAbortWorld, abortEffect, hp]

/-- C8: aborting an OPEN writer (remote_abort, or the disconnect callback
before close) unlinks the staged file, removes its parent directory when
it has no other entries, leaves nothing at the committed path (which held
nothing, close never having run), and notifies bucket_writer_closed with
0 bytes. -/
theorem abort_open_writer_cleanup (w : BucketWriter) (world : WriterWorld)
    (f : List Nat) (hOpen : w.closed = false) (hStaged : world.staged = some f)
    (hFinal : world.finalFile = none) :
    remote_abort w world
        = .ok ({ w with closed := true }, remoteAbortWorld world) ∧
      (remoteAbortWorld world).staged = none ∧
      (remoteAbortWorld world).finalFile = none ∧
      (world.stagedParentOthers = 0 →
        (remoteAbortWorld world).stagedParentExists = false) ∧
      (remoteAbortWorld world).log.closedNotices
          = world.log.closedNotices ++ [0] ∧
      writer_disconnected w world
          = .ok ({ w with closed := true }, abortEffect world) ∧
      (abortEffect world).staged = none ∧
      (abortEffect world).finalFile = none ∧
      (world.stagedParentOthers = 0 →
        (abortEffect world).stagedParentExists = false) ∧
      (abortEffect world).log.closedNotices = world.log.closedNotices ++ [0] := by
  obtain ⟨a1, a2, a3, a4⟩ := abortEffect_fields world
  obtain ⟨r1, r2, r3, r4⟩ := remoteAbortWorld_fields world
  refine ⟨remote_abort_open_eq w world f hOpen hStaged, r1, ?_, r3, r4,
    ?_, a1, ?_, a3, a4⟩
  · rw [r2, hFinal]
  · have hd : writer_disconnected w world = writer_abort w world := by
      simp [writer_disconnected, hOpen]
    rw [hd]
    exact writer_abort_open_eq w world f hOpen hStaged
  · rw [a2, hFinal]

/-- Witness for C8 on a concrete OPEN writer with an empty parent
directory. -/
theorem abort_open_writer_cleanup_witness :
    remote_abort openWriterEx worldOpenEx
        = .ok ({ openWriterEx with closed := true }, remoteAbortWorld worldOpenEx) ∧
      (remoteAbortWorld worldOpenEx).staged = none ∧
      (remoteAbortWorld worldOpenEx).finalFile = none ∧
      (worldOpenEx.stagedParentOthers = 0 →
        (remoteAbortWorld worldOpenEx).stagedParentExists = false) ∧
      (remoteAbortWorld worldOpenEx).log.closedNotices
          = worldOpenEx.log.closedNotices ++ [0] ∧
      writer_disconnected openWriterEx worldOpenEx
          = .ok ({ openWriterEx with closed := true }, abortEffect worldOpenEx) ∧
      (abortEffect worldOpenEx).staged = none ∧
      (abortEffect worldOpenEx).finalFile = none ∧
      (worldOpenEx.stagedParentOthers = 0 →
        (abortEffect worldOpenEx).stagedParentExists = false) ∧
      (abortEffect worldOpenEx).log.closedNotices
          = worldOpenEx.log.closedNotices ++ [0] :=
  abort_open_writer_cleanup openWriterEx worldOpenEx (shareHeaderBytes 1024)
    rfl rfl rfl

theorem shareHeaderBytes_mid (m : Nat) :
    ((shareHeaderBytes m).drop 4).take 4 = pack4 (min (2 ^ 32 - 1) m) :=
  rfl

/-- C9: creating a share container fails when the file exists; otherwise
the parent directories are created and exactly the 12-byte header is
written: big-endian version 1, data_length_hint min(max_size, 2^32-1),
num_leases 0, with the payload region starting at offset 12. -/
theorem sharefile_create_spec (fs : CreateFS) (m : Nat) :
    (fs.fileExists = true → sharefile_create fs m = .error .assertionFailed) ∧
      (fs.fileExists = false →
        sharefile_create fs m = .ok (⟨true, true⟩, shareHeaderBytes m)) ∧
      (shareHeaderBytes m).length = 12 ∧
      be32 ((shareHeaderBytes m).take 4) = 1 ∧
      be32 (((shareHeaderBytes m).drop 4).take 4) = min m (2 ^ 32 - 1) ∧
      be32 ((shareHeaderBytes m).drop 8) = 0 ∧
      data_offset = 12 := by
  have hlt : min (2 ^ 32 - 1) m < 2 ^ 32 :=
    Nat.lt_of_le_of_lt (Nat.min_le_left _ _) (by norm_num)
  refine ⟨fun h => by simp [sharefile_create, h],
    fun h => by simp [sharefile_create, h], rfl, rfl, ?_, rfl, rfl⟩
  rw [shareHeaderBytes_mid m, be32_pack4 _ hlt, Nat.min_comm]

/-- Witness for C9: create on a fresh path with max_size above the 32-bit
hint field (exercising saturation). -/
theorem sharefile_create_spec_witness :
    sharefile_create ⟨false, false⟩ 5000000000
      = .ok (⟨true, true⟩, shareHeaderBytes 5000000000) :=
  (sharefile_create_spec ⟨false, false⟩ 5000000000).2.1 rfl

theorem write_share_data_preserves_header (m : Option Nat) (f data : List Nat)
    (off : Nat) (hf : 12 ≤ f.length) :
    (write_share_data m f off data).2.take 12 = f.take 12 ∧
      12 ≤ (write_share_data m f off data).2.length := by
  have hpos : 12 ≤ data_offset + off := by simp [data_offset]
  have hlen : 12 ≤ (writeAt f (data_offset + off) data).length :=
    le_trans hpos (le_length_writeAt f (data_offset + off) data)
  cases m with
  | none =>
    simp only [write_share_data]
    exact ⟨take_12_writeAt f _ data hpos hf, hlen⟩
  | some mm =>
    by_cases h : mm < off + data.length
    · refine ⟨?_, ?_⟩ <;> simp [write_share_data, h, hf]
    · simp only [write_share_data, if_neg h]
      exact ⟨take_12_writeAt f _ data hpos hf, hlen⟩

theorem applyWrites_take12 (m : Option Nat) (ops : List (Nat × List Nat)) :
    ∀ f : List Nat, 12 ≤ f.length →
      (applyWrites m ops f).take 12 = f.take 12 := by
  induction ops with
  | nil => intro f _; rfl
  | cons op rest ih =>
    intro f hf
    have step := write_share_data_preserves_header m f op.2 op.1 hf
    have hstep : applyWrites m (op :: rest) f
        = applyWrites m rest ((write_share_data m f op.1 op.2).2) := rfl
    rw [hstep, ih _ step.2, step.1]

/-- C10: payload reads and writes address only file positions at or past
the 12-byte data offset: any sequence of write_share_data calls leaves the
header bytes 0..11 unchanged, and read_share_data depends only on the
bytes from position 12 on, so no payload operation observes or modifies
the header. -/
theorem payload_io_never_touches_header (m : Option Nat)
    (ops : List (Nat × List Nat)) (f g : List Nat) (o l : Nat)
    (hf : 12 ≤ f.length) :
    (applyWrites m ops f).take 12 = f.take 12 ∧
      (f.drop 12 = g.drop 12 →
        read_share_data f o l = read_share_data g o l) := by
  refine ⟨applyWrites_take12 m ops f hf, fun hd => ?_⟩
  simp only [read_share_data, data_offset]
  rw [← List.drop_drop, ← List.drop_drop, hd]

/-- Witness for C10: two writes (one oversized and rejected) on a fresh
container leave the header intact; reads at equal payloads agree. -/
theorem payload_io_never_touches_header_witness :
    (applyWrites (some 1024) [(0, [5]), (2000, [7])] (shareHeaderBytes 1024)).take 12
        = (shareHeaderBytes 1024).take 12 ∧
      ((shareHeaderBytes 1024).drop 12 = (shareHeaderBytes 1024).drop 12 →
        read_share_data (shareHeaderBytes 1024) 0 4
          = read_share_data (shareHeaderBytes 1024) 0 4) :=
  payload_io_never_touches_header (some 1024) [(0, [5]), (2000, [7])]
    (shareHeaderBytes 1024) (shareHeaderBytes 1024) 0 4 (by decide)
